import Mathlib

/-!
Verification development for the taibai Go SDK's persistent WebSocket
connection core (`sdk/go` WebSocket client and the message dispatcher).

The definitions below are a shallow embedding of the Go source:

* `WebSocketConfig`, `NewWebSocketClient` — the configuration struct and
  constructor with its defaulting logic.
* `WSMessage`, `MessageHandler`, `MessageHandler.Handle` and the
  `handleUserMessage` / `handleCardCallback` / `handleApprovalChange` /
  `handleSystem` family — the event dispatcher.
* `WSClientState` with `Connect`, `Disconnect`, `Subscribe`, `Unsubscribe`,
  `resubscribe`, `handleDisconnect`, `reconnectLoop` / `Reconnect` — the
  connection manager.  The bounded outbound channel (`writeChan`,
  capacity 100) is modelled as a list with a non-blocking conditional
  append; callback invocations are modelled as an emitted event trace.
* `processFrame` / `wsClientEvents` — the per-frame behaviour of the read
  loop combined with the `NewWSClient` wiring that feeds `OnMessage`
  into `MessageHandler.Handle` and routes dispatch errors to `OnError`.
* `stepT` / `stepSys` / `runSched` — an interleaving semantics for two
  goroutines executing `Reconnect` concurrently, one atomic source
  statement per step, used to analyse the in-flight guard.
-/

namespace Taibai

/-- Configuration struct `WebSocketConfig` from the Go source: endpoint URL,
bearer token, heartbeat interval, reconnect delay and the maximum number of
reconnect attempts (0 meaning unlimited).  Durations are modelled in
seconds as naturals. -/
structure WebSocketConfig where
  url : String
  token : String
  heartbeatInterval : Nat
  reconnectDelay : Nat
  maxReconnectAttempts : Nat
deriving DecidableEq, Repr

/-- User message payload struct (`UserMessage` in the Go source); the
`Raw` field carries no behaviour and is omitted. -/
structure UserMessage where
  messageId : String
  userId : String
  userName : String
  content : String
  messageType : String
  channelId : String
  groupId : String
  timestamp : Int
deriving DecidableEq, Repr

/-- Card callback payload struct (`CardCallback` in the Go source). -/
structure CardCallback where
  callbackId : String
  userId : String
  cardId : String
  action : String
  timestamp : Int
deriving DecidableEq, Repr

/-- Approval change payload struct (`ApprovalChange` in the Go source). -/
structure ApprovalChange where
  approvalId : String
  status : String
  applicantId : String
  applicantName : String
  approverId : String
  approverName : String
  comment : String
  timestamp : Int
deriving DecidableEq, Repr

/-- Model of the opaque `json.RawMessage` payload bytes of a frame.  A
payload is tagged by which specialized struct `json.Unmarshal` would decode
it into (the dispatcher tries exactly one decoder, selected by the frame's
event field); `undecodable` stands for bytes that fail the specialized
decode. -/
inductive Payload where
  | userMessageJson (m : UserMessage)
  | cardCallbackJson (c : CardCallback)
  | approvalChangeJson (a : ApprovalChange)
  | undecodable
deriving DecidableEq, Repr

/-- Wire frame struct `WSMessage` from the Go source:
`{type, event, payload, seq}`. -/
structure WSMessage where
  type : String
  event : String
  payload : Payload
  seq : Int
deriving DecidableEq, Repr

/-- Event type constant `EventUserMessage` from the Go source. -/
def EventUserMessage : String := "user_message"

/-- Event type constant `EventCardCallback` from the Go source. -/
def EventCardCallback : String := "card_callback"

/-- Event type constant `EventApprovalChange` from the Go source. -/
def EventApprovalChange : String := "approval_change"

/-- Model of `json.Unmarshal` of a payload into `UserMessage`. -/
def decodeUserMessage : Payload → Option UserMessage
  | .userMessageJson m => some m
  | _ => none

/-- Model of `json.Unmarshal` of a payload into `CardCallback`. -/
def decodeCardCallback : Payload → Option CardCallback
  | .cardCallbackJson c => some c
  | _ => none

/-- Model of `json.Unmarshal` of a payload into `ApprovalChange`. -/
def decodeApprovalChange : Payload → Option ApprovalChange
  | .approvalChangeJson a => some a
  | _ => none

/-- The dispatcher's registry (`MessageHandler` in the Go source): one
ordered slice of callbacks per event category.  Callbacks are closures in
Go; here each is represented by a numeric identifier, and an invocation is
recorded as a `HandlerCall` trace event. -/
structure MessageHandler where
  userMessageHandlers : List Nat
  cardCallbackHandlers : List Nat
  approvalChangeHandlers : List Nat
  systemHandlers : List Nat
deriving DecidableEq, Repr

/-- One handler invocation: which registered callback was called and with
what decoded argument. -/
inductive HandlerCall where
  | userMessage (id : Nat) (m : UserMessage)
  | cardCallback (id : Nat) (c : CardCallback)
  | approvalChange (id : Nat) (a : ApprovalChange)
  | system (id : Nat) (event : String) (payload : Payload)
deriving DecidableEq, Repr

/-- `MessageHandler.handleUserMessage`: decode the payload into a
`UserMessage` (decode failure is a recoverable error), default a zero
timestamp to the current time (`now`), then invoke every registered
user-message handler in order. -/
def handleUserMessage (h : MessageHandler) (now : Int) (payload : Payload) :
    Except String (List HandlerCall) :=
  match decodeUserMessage payload with
  | none => .error "解析用户消息失败"
  | some msg =>
    let msg := if msg.timestamp = 0 then { msg with timestamp := now } else msg
    .ok (h.userMessageHandlers.map fun id => .userMessage id msg)

/-- `MessageHandler.handleCardCallback`: the card-callback analogue of
`handleUserMessage`. -/
def handleCardCallback (h : MessageHandler) (now : Int) (payload : Payload) :
    Except String (List HandlerCall) :=
  match decodeCardCallback payload with
  | none => .error "解析卡片回调失败"
  | some cb =>
    let cb := if cb.timestamp = 0 then { cb with timestamp := now } else cb
    .ok (h.cardCallbackHandlers.map fun id => .cardCallback id cb)

/-- `MessageHandler.handleApprovalChange`: the approval-change analogue of
`handleUserMessage`. -/
def handleApprovalChange (h : MessageHandler) (now : Int) (payload : Payload) :
    Except String (List HandlerCall) :=
  match decodeApprovalChange payload with
  | none => .error "解析审批状态变更失败"
  | some ch =>
    let ch := if ch.timestamp = 0 then { ch with timestamp := now } else ch
    .ok (h.approvalChangeHandlers.map fun id => .approvalChange id ch)

/-- `MessageHandler.handleSystem`: invoke every registered system handler
with the raw event name and payload; never fails. -/
def handleSystem (h : MessageHandler) (event : String) (payload : Payload) :
    Except String (List HandlerCall) :=
  .ok (h.systemHandlers.map fun id => .system id event payload)

/-- `MessageHandler.Handle`: switch on the frame's event field; the three
recognized categories go to their specialized handlers, anything else falls
through to the system handlers. -/
def MessageHandler.Handle (h : MessageHandler) (now : Int) (m : WSMessage) :
    Except String (List HandlerCall) :=
  if m.event == EventUserMessage then handleUserMessage h now m.payload
  else if m.event == EventCardCallback then handleCardCallback h now m.payload
  else if m.event == EventApprovalChange then handleApprovalChange h now m.payload
  else handleSystem h m.event m.payload

/-- An outbound frame sitting in the write channel.  In Go these are
marshalled JSON bytes; the three shapes produced by the client
(`WSSubscribeRequest` with type subscribe / unsubscribe, and the
application-level ping `WSMessage`) are kept structured. -/
inductive OutFrame where
  | subscribeReq (event : String)
  | unsubscribeReq (event : String)
  | appPing (seq : Int)
deriving DecidableEq, Repr

/-- Capacity of the buffered outbound channel
(`writeChan: make(chan []byte, 100)`). -/
def writeChanCapacity : Nat := 100

/-- State of a `WebSocketClient` instance.  The buffered `writeChan` is a
list (front = next to be drained); `ctxDone` models the shared
`context.Context` cancellation; `closeChanClosed` records whether
`closeChan` has been closed; `hasConn` whether `conn` is non-nil. -/
structure WSClientState where
  cfg : WebSocketConfig
  isConnected : Bool
  isReconnecting : Bool
  ctxDone : Bool
  closeChanClosed : Bool
  hasConn : Bool
  subscriptions : List String
  writeChan : List OutFrame
deriving DecidableEq, Repr

/-- `NewWebSocketClient`: apply the configuration defaults (heartbeat
interval 30s, reconnect delay 5s when left zero) and return the initial,
disconnected state with empty subscription set and empty channels. -/
def NewWebSocketClient (cfg : WebSocketConfig) : WSClientState :=
  let cfg :=
    { cfg with
      heartbeatInterval := if cfg.heartbeatInterval = 0 then 30 else cfg.heartbeatInterval
      reconnectDelay := if cfg.reconnectDelay = 0 then 5 else cfg.reconnectDelay }
  { cfg := cfg, isConnected := false, isReconnecting := false, ctxDone := false,
    closeChanClosed := false, hasConn := false, subscriptions := [], writeChan := [] }

/-- The dial URL built by `Connect`.  The Go source line is
`url := fmt.Sprintf("%s?token=%s", c.config.Token, c.config.Token)` — both
format arguments are the token; the configured endpoint URL is not used. -/
def connectURL (cfg : WebSocketConfig) : String :=
  cfg.token ++ "?token=" ++ cfg.token

/-- Modelled from the spec: the dial target the claim describes, the
configured endpoint URL (with the token as a query parameter, mirroring the
format string's evident intent `"%s?token=%s"` applied to URL and token). -/
def connectURLClaimed (cfg : WebSocketConfig) : String :=
  cfg.url ++ "?token=" ++ cfg.token

/-- The fixed handshake timeout set on the dialer
(`HandshakeTimeout: 10 * time.Second`), in seconds. -/
def handshakeTimeoutSeconds : Nat := 10

/-- The authorization header added before dialing
(`header.Set("Authorization", "Bearer "+c.config.Token)`). -/
def authorizationHeader (cfg : WebSocketConfig) : String × String :=
  ("Authorization", "Bearer " ++ cfg.token)

/-- Callback invocations and externally visible actions of the client,
recorded as a trace. -/
inductive ClientEvent where
  | dial (url : String)
  | errorCb (msg : String)
  | connectCb
  | disconnectCb
  | messageCb (m : WSMessage)
  | handlerCall (c : HandlerCall)
deriving DecidableEq, Repr

/-- The loop body of `resubscribe`: for each tracked topic marshal a
subscribe frame and attempt a non-blocking send on `writeChan`
(`select { case c.writeChan <- data: default: }`) — the frame is dropped
when the channel is full. -/
def resubscribeEnqueue (q : List OutFrame) : List String → List OutFrame
  | [] => q
  | e :: rest =>
    let q' := if q.length < writeChanCapacity then q ++ [OutFrame.subscribeReq e] else q
    resubscribeEnqueue q' rest

/-- `resubscribe`: snapshot the tracked topics under the subscription lock,
then best-effort enqueue a subscribe frame per topic. -/
def resubscribe (s : WSClientState) : WSClientState :=
  { s with writeChan := resubscribeEnqueue s.writeChan s.subscriptions }

/-- `Connect`: no-op when already connected; otherwise dial
`connectURL c.config` with the 10s handshake timeout and the bearer header.
On dial failure invoke `OnError` and return the error with the state
unchanged; on success store the socket, set the connected flag, clear the
reconnecting flag, spawn the three I/O loops, invoke `OnConnect`, and
replay the tracked subscriptions.  The dial outcome is the `dialOk`
parameter; returns the new state, the returned error and the trace. -/
def Connect (dialOk : Bool) (s : WSClientState) :
    WSClientState × Except String Unit × List ClientEvent :=
  if s.isConnected then (s, .ok (), [])
  else
    let url := connectURL s.cfg
    if dialOk then
      let s1 := { s with hasConn := true, isConnected := true, isReconnecting := false }
      (resubscribe s1, .ok (), [.dial url, .connectCb])
    else
      (s, .error "连接失败", [.dial url, .errorCb "连接失败"])

/-- `Disconnect`: cancel the shared context, close the socket (clearing the
connected flag) when one exists, then `close(c.closeChan)`.  Closing an
already-closed Go channel is a runtime panic, modelled as the error
`"close of closed channel"`. -/
def Disconnect (s : WSClientState) : Except String WSClientState :=
  let s1 := { s with ctxDone := true }
  let s2 := if s1.hasConn then { s1 with isConnected := false } else s1
  if s2.closeChanClosed then .error "close of closed channel"
  else .ok { s2 with closeChanClosed := true }

/-- Backpressure error returned by `Subscribe` / `Unsubscribe` when the
outbound channel is full ("发送通道已满"). -/
def channelFullErr : String := "发送通道已满"

/-- `Subscribe`: under the subscription lock — no-op when the topic is
already tracked; otherwise marshal a subscribe frame (marshalling of
`WSSubscribeRequest` cannot fail) and attempt a non-blocking enqueue: on
success also mark the topic tracked, on a full channel return the
backpressure error leaving the set unchanged.  The tracked map with `true`
values is modelled as the list of its keys. -/
def Subscribe (s : WSClientState) (event : String) :
    WSClientState × Except String Unit :=
  if s.subscriptions.contains event then (s, .ok ())
  else if s.writeChan.length < writeChanCapacity then
    ({ s with writeChan := s.writeChan ++ [OutFrame.subscribeReq event],
              subscriptions := s.subscriptions ++ [event] }, .ok ())
  else (s, .error channelFullErr)

/-- `Unsubscribe`: symmetric to `Subscribe` — no-op when the topic is not
tracked; otherwise enqueue an unsubscribe frame, removing the topic from
the tracked set only on successful enqueue. -/
def Unsubscribe (s : WSClientState) (event : String) :
    WSClientState × Except String Unit :=
  if !(s.subscriptions.contains event) then (s, .ok ())
  else if s.writeChan.length < writeChanCapacity then
    ({ s with writeChan := s.writeChan ++ [OutFrame.unsubscribeReq event],
              subscriptions := s.subscriptions.filter (fun e => !(e == event)) }, .ok ())
  else (s, .error channelFullErr)

/-- One iteration of the read loop's frame handling combined with the
`NewWSClient` wiring: a frame that fails `json.Unmarshal` reports a parse
error through `OnError` and the loop continues; a decoded frame whose type
or event is `"pong"` is consumed silently; any other decoded frame is
handed to `OnMessage`, which runs `MessageHandler.Handle` and routes a
dispatch error to `OnError`.  The frame's decode outcome is part of the
input (`RawInFrame`). -/
inductive RawInFrame where
  | malformed
  | decoded (m : WSMessage)
deriving DecidableEq, Repr

/-- Per-frame behaviour of the read loop plus dispatcher (see
`RawInFrame`). -/
def processFrame (h : MessageHandler) (now : Int) : RawInFrame → List ClientEvent
  | .malformed => [.errorCb "解析消息失败"]
  | .decoded m =>
    if m.type == "pong" || m.event == "pong" then []
    else
      ClientEvent.messageCb m ::
        (match h.Handle now m with
         | .ok calls => calls.map ClientEvent.handlerCall
         | .error e => [.errorCb e])

/-- The trace the read loop produces on a sequence of inbound frames,
processed serially in arrival order. -/
def wsClientEvents (h : MessageHandler) (now : Int) : List RawInFrame → List ClientEvent
  | [] => []
  | f :: rest => processFrame h now f ++ wsClientEvents h now rest

/-- `handleDisconnect`, the deferred function run when the read loop
exits: under the state lock read and clear the connected flag; invoke
`OnDisconnect` only when the flag was set (and a disconnect callback is
registered, the `cb` argument); then unconditionally spawn
`go c.Reconnect()`.  Returns (new state, disconnect-callback invoked,
reconnect spawned). -/
def handleDisconnect (cb : Bool) (s : WSClientState) :
    WSClientState × Bool × Bool :=
  let wasConnected := s.isConnected
  let s1 := { s with isConnected := false }
  (s1, wasConnected && cb, true)

/-- Terminal error reported when the maximum number of reconnect attempts
is exceeded (`fmt.Errorf("达到最大重连次数: %d", ...)`). -/
def maxReconnectErr (n : Nat) : String :=
  "达到最大重连次数: " ++ toString n

/-- Result of a `Reconnect` run: the final state, the emitted trace, and
the state observed at each top of the attempt loop (used to express
properties holding throughout the run). -/
structure ReconnectRun where
  final : WSClientState
  events : List ClientEvent
  visited : List WSClientState
deriving Repr

/-- The attempt loop of `Reconnect`: at each top check the cancellation
token, increment the attempt counter, report the terminal error and stop
once the counter exceeds a positive `maxReconnectAttempts`, otherwise
sleep the reconnect delay and call `Connect` — returning on success,
looping on failure.  `dialOk n` gives the outcome of the n-th dial; `fuel`
bounds the number of modelled iterations (the Go loop is unbounded). -/
def reconnectLoop (dialOk : Nat → Bool) : Nat → Nat → WSClientState → ReconnectRun
  | 0, _, s => ⟨s, [], [s]⟩
  | fuel + 1, attempts, s =>
    if s.ctxDone then ⟨s, [], [s]⟩
    else
      let attempts' := attempts + 1
      if 0 < s.cfg.maxReconnectAttempts ∧ s.cfg.maxReconnectAttempts < attempts' then
        ⟨s, [ClientEvent.errorCb (maxReconnectErr s.cfg.maxReconnectAttempts)], [s]⟩
      else
        match Connect (dialOk attempts') s with
        | (s1, .ok _, evs) => ⟨s1, evs, [s, s1]⟩
        | (s1, .error _, evs) =>
          let r := reconnectLoop dialOk fuel attempts' s1
          ⟨r.final, evs ++ r.events, s :: r.visited⟩

/-- `Reconnect`: return immediately when the in-flight flag is set;
otherwise set it, run the attempt loop, and clear it on exit (the `defer`).
This is the sequential (single-caller) semantics; the concurrent behaviour
of the unsynchronized flag is modelled separately by `stepT` / `runSched`. -/
def Reconnect (dialOk : Nat → Bool) (fuel : Nat) (s : WSClientState) : ReconnectRun :=
  if s.isReconnecting then ⟨s, [], [s]⟩
  else
    let r := reconnectLoop dialOk fuel 0 { s with isReconnecting := true }
    ⟨{ r.final with isReconnecting := false }, r.events, r.visited⟩

/-- One goroutine executing `Reconnect`, for the interleaving analysis.
`pc` points at the next atomic source statement: 0 = the read in
`if c.isReconnecting` (the guard), 1 = the write `c.isReconnecting = true`,
2 = inside the attempt loop (one failed dial per step, assuming every dial
fails), 3 = returned.  `dials` counts the dial attempts this goroutine has
made. -/
structure RThread where
  pc : Nat
  dials : Nat
deriving DecidableEq, Repr

/-- Shared state for two concurrent `Reconnect` callers: the
`isReconnecting` flag and the two goroutines. -/
structure RSys where
  flag : Bool
  t1 : RThread
  t2 : RThread
deriving DecidableEq, Repr

/-- Execute one atomic statement of one goroutine (see `RThread`): the
guard read, the flag write, one failed dial, or — once `max` dials have
failed — the terminal-error return which also clears the flag (the
`defer`). -/
def stepT (max : Nat) (flag : Bool) (t : RThread) : Bool × RThread :=
  match t.pc with
  | 0 => if flag then (flag, { t with pc := 3 }) else (flag, { t with pc := 1 })
  | 1 => (true, { t with pc := 2 })
  | 2 =>
    if t.dials < max then (flag, { t with dials := t.dials + 1 })
    else (false, { t with pc := 3 })
  | _ => (flag, t)

/-- Step the chosen goroutine (`true` = first caller) once. -/
def stepSys (max : Nat) (s : RSys) (which : Bool) : RSys :=
  if which then
    let ft := stepT max s.flag s.t1
    { s with flag := ft.1, t1 := ft.2 }
  else
    let ft := stepT max s.flag s.t2
    { s with flag := ft.1, t2 := ft.2 }

/-- Run a schedule (a list of goroutine choices) from a system state. -/
def runSched (max : Nat) (s : RSys) (sched : List Bool) : RSys :=
  sched.foldl (stepSys max) s

/-! ### Fixtures -/

/-- An inbound frame marked as a transport ping in both fields. -/
def pingMsg : WSMessage :=
  { type := "ping", event := "ping", payload := .undecodable, seq := 0 }

/-- An inbound frame marked as a transport pong in both fields. -/
def pongMsg : WSMessage :=
  { type := "pong", event := "pong", payload := .undecodable, seq := 0 }

/-- A dispatcher with a single registered system handler and no others. -/
def systemOnlyHandler : MessageHandler := ⟨[], [], [], [0]⟩

/-- A dispatcher with no registered handlers. -/
def emptyHandler : MessageHandler := ⟨[], [], [], []⟩

/-- Number of trace events satisfying a predicate. -/
def countEvents (p : ClientEvent → Bool) (evs : List ClientEvent) : Nat :=
  (evs.filter p).length

/-- Recognizer for dial-attempt trace events. -/
def isDial : ClientEvent → Bool
  | .dial _ => true
  | _ => false

/-! ### Claims -/

/-- Claim C1, counterexample: an inbound frame whose type and event are
`"ping"` — a transport keepalive by the claim's own wording — is NOT
consumed silently by the read loop: it is delivered to the generic message
callback and dispatched to a typed (system) handler.  Only `"pong"` is
filtered by the source (`if wsMsg.Type == "pong" || wsMsg.Event == "pong"`). -/
theorem ping_frame_reaches_handlers :
    wsClientEvents systemOnlyHandler 0 [RawInFrame.decoded pingMsg] =
      [ClientEvent.messageCb pingMsg,
       ClientEvent.handlerCall (HandlerCall.system 0 "ping" Payload.undecodable)] := by
  decide

/-- Claim C1, amended: for every inbound frame whose type or event is
`"pong"`, the reader consumes it silently — it contributes nothing to the
trace, so it is never delivered to the generic message callback nor to any
typed handler, and the surrounding frames are processed as if it were
absent. -/
theorem pong_frames_consumed_silently (h : MessageHandler) (now : Int) (m : WSMessage)
    (hp : m.type = "pong" ∨ m.event = "pong") :
    processFrame h now (RawInFrame.decoded m) = [] ∧
    ∀ rest, wsClientEvents h now (RawInFrame.decoded m :: rest) = wsClientEvents h now rest := by
  have hb : (m.type == "pong" || m.event == "pong") = true := by
    rcases hp with h1 | h1 <;> simp [h1]
  refine ⟨?_, ?_⟩
  · simp [processFrame, hb]
  · intro rest
    simp [wsClientEvents, processFrame, hb]

/-- Claim C1, witness for the amended theorem at a concrete pong frame. -/
theorem pong_frames_consumed_silently_witness :
    processFrame systemOnlyHandler 0 (RawInFrame.decoded pongMsg) = [] ∧
    wsClientEvents systemOnlyHandler 0 [RawInFrame.decoded pongMsg] = [] := by
  have h := pong_frames_consumed_silently systemOnlyHandler 0 pongMsg (Or.inl rfl)
  exact ⟨h.1, by simpa using h.2 []⟩

/-- Configuration fixture for the double-disconnect scenario. -/
def c2Cfg : WebSocketConfig :=
  { url := "ws://hub.example/ws", token := "tok", heartbeatInterval := 0,
    reconnectDelay := 0, maxReconnectAttempts := 0 }

/-- The client state after one `Disconnect` on a fresh client: context
cancelled and `closeChan` closed. -/
def c2AfterFirst : WSClientState :=
  { NewWebSocketClient c2Cfg with ctxDone := true, closeChanClosed := true }

/-- Claim C2: the code is NOT safe under repeated `Disconnect` — the first
call succeeds, but the second reaches `close(c.closeChan)` with the channel
already closed, which is a Go runtime panic.  (The spec itself flags this
as a latent double-close bug that the claim's required behaviour forbids.) -/
theorem second_disconnect_panics :
    Disconnect (NewWebSocketClient c2Cfg) = Except.ok c2AfterFirst ∧
    Disconnect c2AfterFirst = Except.error "close of closed channel" := by
  constructor <;> rfl

/-- Configuration fixture for the dial-URL scenario. -/
def c3Cfg : WebSocketConfig :=
  { url := "ws://example.com/ws", token := "tok", heartbeatInterval := 30,
    reconnectDelay := 5, maxReconnectAttempts := 0 }

/-- Claim C3: `Connect` does dial with a 10-second handshake timeout and a
bearer-token Authorization header, but the URL it dials is built from the
configured token, not the configured endpoint URL: with endpoint
`ws://example.com/ws` and token `tok` it dials `tok?token=tok`. -/
theorem connect_dials_token_not_endpoint :
    connectURL c3Cfg = "tok?token=tok" ∧
    connectURLClaimed c3Cfg = "ws://example.com/ws?token=tok" ∧
    connectURL c3Cfg ≠ connectURLClaimed c3Cfg ∧
    (Connect false (NewWebSocketClient c3Cfg)).2.2 =
      [ClientEvent.dial "tok?token=tok", ClientEvent.errorCb "连接失败"] ∧
    handshakeTimeoutSeconds = 10 ∧
    authorizationHeader c3Cfg = ("Authorization", "Bearer tok") := by
  refine ⟨rfl, rfl, ?_, rfl, rfl, rfl⟩
  decide

/-- Dial-outcome fixture: every dial attempt fails. -/
def allDialsFail : Nat → Bool := fun _ => false

/-- Configuration fixture with `maxReconnectAttempts = 3`. -/
def c5Cfg : WebSocketConfig :=
  { url := "ws://hub.example/ws", token := "tok", heartbeatInterval := 0,
    reconnectDelay := 0, maxReconnectAttempts := 3 }

/-- The run of a single `Reconnect()` call on a fresh client with
`maxReconnectAttempts = 3` and every dial failing (fuel 16 is ample: the
loop stops at its fourth iteration). -/
def c5Run : ReconnectRun := Reconnect allDialsFail 16 (NewWebSocketClient c5Cfg)

/-- Claim C5: with `maxReconnectAttempts = 3` and every dial failing, a
single `Reconnect()` makes exactly 3 dial attempts, reports the terminal
max-attempts error through the error callback exactly once, the client is
not connected at every loop iteration, and the final state is the initial
(disconnected) state. -/
theorem reconnect_exhausts_three_attempts :
    countEvents isDial c5Run.events = 3 ∧
    countEvents (fun e => e == ClientEvent.errorCb (maxReconnectErr 3)) c5Run.events = 1 ∧
    c5Run.visited.all (fun st => !st.isConnected) = true ∧
    c5Run.final = NewWebSocketClient c5Cfg := by
  decide

/-- Initial system state for two concurrent `Reconnect` callers: flag
clear, both goroutines at the guard. -/
def c9Start : RSys := ⟨false, ⟨0, 0⟩, ⟨0, 0⟩⟩

/-- A legal interleaving in which both goroutines execute the guard read
`if c.isReconnecting` (both observing `false`) before either executes the
write `c.isReconnecting = true`; each then runs a full failing attempt
sequence of 3 dials and returns. -/
def c9RaceSched : List Bool :=
  [true, false, true, false,
   true, true, true, true,
   false, false, false, false]

/-- The system state after running the racy schedule with
`maxReconnectAttempts = 3`. -/
def c9Final : RSys := runSched 3 c9Start c9RaceSched

/-- Claim C9: the in-flight guard is an unsynchronized check-then-set, so
under the interleaving `c9RaceSched` both concurrent callers pass the guard
and both run a full attempt sequence — 6 dial attempts in total with
`maxReconnectAttempts = 3`, double the claimed bound. -/
theorem reconnect_guard_race_doubles_dials :
    c9Final.t1.dials = 3 ∧ c9Final.t2.dials = 3 ∧
    c9Final.t1.pc = 3 ∧ c9Final.t2.pc = 3 ∧
    ¬ c9Final.t1.dials + c9Final.t2.dials ≤ 3 := by
  decide

/-- Claim C4: for a topic not currently tracked, `Subscribe` adds it to
the tracked set exactly when the non-blocking enqueue of the subscribe
frame succeeds (the channel has room): on success the topic is tracked and
the frame enqueued, on a full channel the call returns the backpressure
error and the state is unchanged; `Unsubscribe` is symmetric for a tracked
topic, removing it only on successful enqueue of the unsubscribe frame. -/
theorem subscribe_tracks_iff_enqueued (s t : WSClientState) (topic : String)
    (hs : s.subscriptions.contains topic = false)
    (ht : t.subscriptions.contains topic = true) :
    ((s.writeChan.length < writeChanCapacity →
        (Subscribe s topic).2 = Except.ok () ∧
        (Subscribe s topic).1.subscriptions = s.subscriptions ++ [topic] ∧
        (Subscribe s topic).1.writeChan = s.writeChan ++ [OutFrame.subscribeReq topic]) ∧
      (writeChanCapacity ≤ s.writeChan.length →
        (Subscribe s topic).2 = Except.error channelFullErr ∧
        (Subscribe s topic).1 = s)) ∧
    ((t.writeChan.length < writeChanCapacity →
        (Unsubscribe t topic).2 = Except.ok () ∧
        (Unsubscribe t topic).1.subscriptions =
          t.subscriptions.filter (fun e => !(e == topic)) ∧
        (Unsubscribe t topic).1.writeChan = t.writeChan ++ [OutFrame.unsubscribeReq topic]) ∧
      (writeChanCapacity ≤ t.writeChan.length →
        (Unsubscribe t topic).2 = Except.error channelFullErr ∧
        (Unsubscribe t topic).1 = t)) := by
  have hsm : topic ∉ s.subscriptions := by simpa using hs
  have htm : topic ∈ t.subscriptions := by simpa using ht
  refine ⟨⟨?_, ?_⟩, ?_, ?_⟩ <;> intro hlen
  · simp [Subscribe, hsm, hlen]
  · simp [Subscribe, hsm, Nat.not_lt.mpr hlen]
  · simp [Unsubscribe, htm, hlen]
  · simp [Unsubscribe, htm, Nat.not_lt.mpr hlen]

/-- Configuration fixture shared by the subscription scenarios. -/
def c4Cfg : WebSocketConfig :=
  { url := "ws://hub.example/ws", token := "tok", heartbeatInterval := 0,
    reconnectDelay := 0, maxReconnectAttempts := 0 }

/-- A fresh client: topic untracked, outbound channel empty. -/
def c4Untracked : WSClientState := NewWebSocketClient c4Cfg

/-- A client tracking `"news"` whose outbound channel is full. -/
def c4TrackedFull : WSClientState :=
  { NewWebSocketClient c4Cfg with
    subscriptions := ["news"],
    writeChan := List.replicate writeChanCapacity (OutFrame.appPing 0) }

/-- Claim C4, witness: subscribing an untracked topic on an empty channel
tracks it and enqueues the frame; unsubscribing a tracked topic on a full
channel fails with backpressure and leaves the state unchanged. -/
theorem subscribe_tracks_iff_enqueued_witness :
    (Subscribe c4Untracked "news").1.subscriptions = ["news"] ∧
    (Subscribe c4Untracked "news").1.writeChan = [OutFrame.subscribeReq "news"] ∧
    (Unsubscribe c4TrackedFull "news").2 = Except.error channelFullErr ∧
    (Unsubscribe c4TrackedFull "news").1 = c4TrackedFull := by
  have h := subscribe_tracks_iff_enqueued c4Untracked c4TrackedFull "news"
    (by decide) (by decide)
  have h1 := h.1.1 (by decide)
  have h2 := h.2.2 (by decide)
  exact ⟨by simpa using h1.2.1, by simpa using h1.2.2, h2.1, h2.2⟩

/-- Claim C6: starting from a state in which the topic is untracked, a
successful `Subscribe` enqueues exactly one subscribe frame, and a second
`Subscribe` of the same topic is a pure no-op returning no error: the
state (tracked set and outbound channel alike) is unchanged, so exactly one
frame is issued across the two calls. -/
theorem subscribe_twice_single_frame (s : WSClientState) (topic : String)
    (hnt : s.subscriptions.contains topic = false)
    (h1 : (Subscribe s topic).2 = Except.ok ()) :
    Subscribe (Subscribe s topic).1 topic = ((Subscribe s topic).1, Except.ok ()) ∧
    (Subscribe s topic).1.writeChan = s.writeChan ++ [OutFrame.subscribeReq topic] := by
  have hsm : topic ∉ s.subscriptions := by simpa using hnt
  by_cases hlen : s.writeChan.length < writeChanCapacity
  · have hsubs : (Subscribe s topic).1.subscriptions = s.subscriptions ++ [topic] := by
      simp [Subscribe, hsm, hlen]
    have hwc : (Subscribe s topic).1.writeChan =
        s.writeChan ++ [OutFrame.subscribeReq topic] := by
      simp [Subscribe, hsm, hlen]
    have hmem : topic ∈ (Subscribe s topic).1.subscriptions := by
      rw [hsubs]
      simp
    refine ⟨?_, hwc⟩
    set s' := (Subscribe s topic).1 with hs'
    simp [Subscribe, hmem]
  · exfalso
    simp [Subscribe, hsm, hlen] at h1

/-- A fresh client for the double-subscribe scenario. -/
def c6State : WSClientState :=
  NewWebSocketClient
    { url := "ws://hub.example/ws", token := "tok", heartbeatInterval := 0,
      reconnectDelay := 0, maxReconnectAttempts := 0 }

/-- Claim C6, witness at a fresh client and the topic `"news"`. -/
theorem subscribe_twice_single_frame_witness :
    Subscribe (Subscribe c6State "news").1 "news" =
      ((Subscribe c6State "news").1, Except.ok ()) ∧
    (Subscribe c6State "news").1.writeChan = [OutFrame.subscribeReq "news"] := by
  have h := subscribe_twice_single_frame c6State "news" (by decide) rfl
  exact ⟨h.1, by simpa using h.2⟩

/-- The subscribe-frame constructor is injective (distinct topics give
distinct frames). -/
theorem subscribeReq_injective : Function.Injective OutFrame.subscribeReq := by
  intro a b h
  injection h

/-- When the outbound channel has room for every tracked topic, the replay
loop enqueues exactly the subscribe frames of the tracked topics, in
iteration order, after the existing contents. -/
theorem resubscribeEnqueue_eq_append (evs : List String) (q : List OutFrame)
    (h : q.length + evs.length ≤ writeChanCapacity) :
    resubscribeEnqueue q evs = q ++ evs.map OutFrame.subscribeReq := by
  induction evs generalizing q with
  | nil => simp [resubscribeEnqueue]
  | cons e rest ih =>
    have hl : q.length + (rest.length + 1) ≤ writeChanCapacity := by
      simpa using h
    have hq : q.length < writeChanCapacity := by omega
    have hrec : (q ++ [OutFrame.subscribeReq e]).length + rest.length ≤ writeChanCapacity := by
      simp
      omega
    calc resubscribeEnqueue q (e :: rest)
        = resubscribeEnqueue (q ++ [OutFrame.subscribeReq e]) rest := by
          simp [resubscribeEnqueue, hq]
      _ = (q ++ [OutFrame.subscribeReq e]) ++ rest.map OutFrame.subscribeReq := ih _ hrec
      _ = q ++ (e :: rest).map OutFrame.subscribeReq := by simp

/-- Claim C7: a successful `Connect` on a disconnected client ends with the
subscription replay, which — when the outbound channel has room for every
tracked topic, and the tracked set (a map key set) has no duplicates —
enqueues the subscribe frame of every tracked topic exactly once and
nothing else. -/
theorem connect_replays_each_topic_once (s : WSClientState)
    (hnc : s.isConnected = false)
    (hcap : s.writeChan.length + s.subscriptions.length ≤ writeChanCapacity)
    (hnd : s.subscriptions.Nodup) :
    (Connect true s).1.writeChan = s.writeChan ++ s.subscriptions.map OutFrame.subscribeReq ∧
    ∀ t ∈ s.subscriptions,
      (Connect true s).1.writeChan.count (OutFrame.subscribeReq t) =
        s.writeChan.count (OutFrame.subscribeReq t) + 1 := by
  have hwc : (Connect true s).1.writeChan =
      s.writeChan ++ s.subscriptions.map OutFrame.subscribeReq := by
    simp [Connect, hnc, resubscribe]
    exact resubscribeEnqueue_eq_append s.subscriptions s.writeChan hcap
  refine ⟨hwc, ?_⟩
  intro t ht
  rw [hwc, List.count_append]
  congr 1
  rw [List.count_map_of_injective _ _ subscribeReq_injective]
  exact List.count_eq_one_of_mem hnd ht

/-- A disconnected client tracking the two topics `"alpha"` and `"beta"`
with an empty outbound channel. -/
def c7State : WSClientState :=
  { NewWebSocketClient
      { url := "ws://hub.example/ws", token := "tok", heartbeatInterval := 0,
        reconnectDelay := 0, maxReconnectAttempts := 0 } with
    subscriptions := ["alpha", "beta"] }

/-- Claim C7, witness: reconnecting the two-topic client replays exactly
one subscribe frame per topic. -/
theorem connect_replays_each_topic_once_witness :
    (Connect true c7State).1.writeChan =
      [OutFrame.subscribeReq "alpha", OutFrame.subscribeReq "beta"] ∧
    (Connect true c7State).1.writeChan.count (OutFrame.subscribeReq "alpha") = 1 := by
  have h := connect_replays_each_topic_once c7State (by decide) (by decide) (by decide)
  constructor
  · simpa using h.1
  · have h2 := h.2 "alpha" (by decide)
    simpa using h2

/-- The valid user-message frame fed to the reader after the malformed
one: event `user_message` with a payload that decodes. -/
def userMsgFrame (u : UserMessage) : WSMessage :=
  { type := "message", event := EventUserMessage, payload := .userMessageJson u, seq := 1 }

/-- Recognizer for error-callback trace events. -/
def isErrorCb : ClientEvent → Bool
  | .errorCb _ => true
  | _ => false

/-- Recognizer for user-message handler invocations. -/
def isUserMessageCall : ClientEvent → Bool
  | .handlerCall (.userMessage _ _) => true
  | _ => false

/-- Claim C8: with a single registered user-message handler, feeding the
reader a malformed frame followed by a valid user-message frame produces
exactly one error-callback invocation (the decode failure) and exactly one
user-message-handler invocation — the malformed frame is skipped and the
valid one is dispatched normally. -/
theorem malformed_then_valid_counts (h : MessageHandler) (hid : Nat)
    (u : UserMessage) (now : Int)
    (hh : h.userMessageHandlers = [hid]) :
    countEvents isErrorCb
      (wsClientEvents h now
        [RawInFrame.malformed, RawInFrame.decoded (userMsgFrame u)]) = 1 ∧
    countEvents isUserMessageCall
      (wsClientEvents h now
        [RawInFrame.malformed, RawInFrame.decoded (userMsgFrame u)]) = 1 := by
  by_cases ht : u.timestamp = 0 <;>
    simp [wsClientEvents, processFrame, userMsgFrame, MessageHandler.Handle,
      EventUserMessage, handleUserMessage, decodeUserMessage, hh, ht,
      countEvents, isErrorCb, isUserMessageCall]

/-- A dispatcher with a single registered user-message handler. -/
def oneUserHandler : MessageHandler := ⟨[7], [], [], []⟩

/-- A concrete user message. -/
def c8User : UserMessage :=
  { messageId := "m1", userId := "u1", userName := "n1", content := "hello",
    messageType := "text", channelId := "c1", groupId := "", timestamp := 5 }

/-- Claim C8, witness at a concrete dispatcher and message. -/
theorem malformed_then_valid_counts_witness :
    countEvents isErrorCb
      (wsClientEvents oneUserHandler 0
        [RawInFrame.malformed, RawInFrame.decoded (userMsgFrame c8User)]) = 1 ∧
    countEvents isUserMessageCall
      (wsClientEvents oneUserHandler 0
        [RawInFrame.malformed, RawInFrame.decoded (userMsgFrame c8User)]) = 1 :=
  malformed_then_valid_counts oneUserHandler 7 c8User 0 rfl

/-- Claim C10: `handleDisconnect` (the deferred function run whenever the
read loop exits) invokes the disconnect callback exactly when the client
was connected at that moment (and a callback is registered), clears the
connected flag, and unconditionally spawns an automatic reconnect — so a
reader exit while already disconnected triggers the reconnect attempt with
no disconnect-callback invocation. -/
theorem reader_exit_callback_iff_was_connected (cb : Bool) (s : WSClientState) :
    (handleDisconnect cb s).2.1 = (s.isConnected && cb) ∧
    (handleDisconnect cb s).2.2 = true ∧
    (handleDisconnect cb s).1.isConnected = false := by
  simp [handleDisconnect]

end Taibai
